import Mathlib

deriving instance DecidableEq for Except

/-!
Shallow embedding of the plugin-configuration and dispatch core of
IntelOwl (`api_app/core/models.py`): parameter-value resolution
(`Parameter.get_first_value`), runnability (`AbstractConfig.is_runnable`,
`PythonConfig.is_runnable`, `_is_configured`), parameter reading
(`PythonConfig.read_params`), queue validation and computation
(`clean_config_queue`, `queue`) and task-signature construction
(`PythonConfig.get_signature`).

Database tables become lists of rows; Django QuerySet `get` becomes a
function returning not-exist / a unique row / multiple; exceptions become
`Except` values.  Models referenced by the core but outside the excerpt
(`PluginConfig.visible_for_user`, the `Job` model, the membership
directory, the celery settings) are modelled from the spec and flagged as
such in their doc comments.
-/

/-- A user, identified by a numeric id (Django primary key). -/
structure User where
  id : Nat
deriving DecidableEq, Repr

/-- An organization: primary key and its owner user
(`user.membership.organization.owner` in the source). -/
structure Organization where
  pk : Nat
  owner : User
deriving DecidableEq, Repr

/-- Category of plugin configuration a `Parameter` row may point at through
its three nullable foreign keys. -/
inductive ConfigKind where
  | analyzer
  | connector
  | visualizer
deriving DecidableEq, Repr

/-- `Parameter` model row (`api_app/core/models.py`, class `Parameter`):
name, `is_secret`, `required`, and the three mutually exclusive nullable
foreign keys `analyzer_config` / `connector_config` / `visualizer_config`
(a plugin configuration is identified by its `name` primary key).
An `id` field stands for the implicit Django primary key, used by
`PluginConfig` rows to reference their parameter. -/
structure Parameter where
  id : Nat
  name : String
  is_secret : Bool
  required : Bool
  analyzer_config : Option String
  connector_config : Option String
  visualizer_config : Option String
deriving DecidableEq, Repr

/-- A `PluginConfig` row (called ParameterValue in the spec): a candidate
value for a parameter, scoped by `owner` (a user or null) and
`for_organization`. -/
structure PluginConfigRow where
  parameter : Nat
  value : String
  owner : Option User
  for_organization : Bool
deriving DecidableEq, Repr

/-- A plugin configuration (`AbstractConfig` plus `PythonConfig` fields):
`name` is the primary key; `disabled`, the set of organization pks for
which it is individually disabled, the python module path pieces, and the
`config` JSON blob's `queue` and `soft_time_limit` entries. `kind` records
which of the three concrete tables (analyzer/connector/visualizer) the row
lives in, which decides which foreign key of `Parameter` points at it. -/
structure PythonConfig where
  name : String
  kind : ConfigKind
  disabled : Bool
  disabled_in_organizations : List Nat
  python_base_path : String
  python_module : String
  config_queue : String
  config_soft_time_limit : Nat
deriving DecidableEq, Repr

/-- Modelled from the spec: the `Job` model is not part of the excerpt.
A job carries the requesting user and the optional per-plugin
runtime-configuration override map, keyed by plugin name, each entry a
map from parameter name to value (spec section 3, Job). -/
structure Job where
  pk : Nat
  user : User
  runtime_configuration : List (String × List (String × String))
deriving DecidableEq, Repr

/-- The database and directory state the core reads:
the `Parameter` table, the `PluginConfig` (ParameterValue) table, and the
identity/organization directory giving a user's membership
(modelled from the spec, section 6: given a user, returns membership or
none). -/
structure Env where
  params : List Parameter
  rows : List PluginConfigRow
  membership : User → Option Organization

/-- Modelled from the spec: celery settings used by the core
(`settings.CELERY_QUEUES`, `DEFAULT_QUEUE`, `get_queue_name`), which live
outside the excerpt in `intel_owl/celery.py` and the Django settings. -/
structure CeleryEnv where
  celeryQueues : List String
  defaultQueue : String
  getQueueName : String → String

/-- Result of a Django `QuerySet.get`: no match (`DoesNotExist`), a unique
match, or more than one match (`MultipleObjectsReturned`). -/
inductive GetResult where
  | notExist
  | found (r : PluginConfigRow)
  | multiple
deriving DecidableEq, Repr

/-- Errors raised during parameter resolution: the `RuntimeError` of
`get_first_value` when no tier yields a value (named
`ParameterNotConfigured` in the spec's taxonomy), and Django's
`MultipleObjectsReturned` when a `get` matches more than one row. -/
inductive ResolveError where
  | parameterNotConfigured
  | multipleObjectsReturned
deriving DecidableEq, Repr

/-- The `RuntimeError` raised by `get_signature` when the configuration is
not runnable (named `PluginNotRunnable` in the spec's taxonomy). -/
inductive SignatureError where
  | pluginNotRunnable
deriving DecidableEq, Repr

/-- `ValidationError`s raised by the `clean_*` methods. -/
inductive ValidationError where
  | moduleImportError
  | parameterOnMultipleConfigs
  | parameterOnNoConfig
deriving DecidableEq, Repr

/-- Django `QuerySet.get(pred)` on a list of rows: `DoesNotExist` when no
row matches, the row when exactly one matches, `MultipleObjectsReturned`
when several match. -/
def qsGet (pred : PluginConfigRow → Bool) (l : List PluginConfigRow) : GetResult :=
  match l.filter pred with
  | [] => GetResult.notExist
  | [r] => GetResult.found r
  | _ :: _ :: _ => GetResult.multiple

/-- Modelled from the spec: `PluginConfig.visible_for_user` is outside the
excerpt. Per spec section 4.1 the candidate set for a lookup contains the
values scoped by the user, by the organization owner (when the user has a
membership), or by neither (system default). -/
def visibleTo (env : Env) (u : Option User) (r : PluginConfigRow) : Bool :=
  r.owner = none ||
  (match u with
   | none => false
   | some user =>
     r.owner = some user ||
     (r.for_organization &&
       (match env.membership user with
        | some org => r.owner = some org.owner
        | none => false)))

/-- `Parameter.values_for_user`: the `PluginConfig` rows visible to the
user, filtered to this parameter. -/
def values_for_user (env : Env) (u : Option User) (p : Parameter) : List PluginConfigRow :=
  (env.rows.filter (fun r => decide (r.parameter = p.id))).filter (visibleTo env u)

/-- `Parameter.get_first_value` (without the `STAGE_CI` test shim of
`valid_value_for_test`, which in production re-raises): try the rows
visible to the user in precedence order owner, organization, default.
The first lookup is `qs.get(owner=user)`; the second, attempted only when
the user has a membership, is
`qs.get(for_organization=True, owner=membership.organization.owner)` and
only its `DoesNotExist` is swallowed; the third is
`qs.get(owner__isnull=True)`; if that too does not exist, the
`RuntimeError` (ParameterNotConfigured) is raised. A `get` matching more
than one row raises `MultipleObjectsReturned`, which no handler catches. -/
def get_first_value (env : Env) (p : Parameter) (user : User) : Except ResolveError PluginConfigRow :=
  let qs := values_for_user env (some user) p
  match qsGet (fun r => decide (r.owner = some user)) qs with
  | GetResult.found r => Except.ok r
  | GetResult.multiple => Except.error ResolveError.multipleObjectsReturned
  | GetResult.notExist =>
    let orgResult :=
      match env.membership user with
      | some org =>
        qsGet (fun r => r.for_organization && decide (r.owner = some org.owner)) qs
      | none => GetResult.notExist
    match orgResult with
    | GetResult.found r => Except.ok r
    | GetResult.multiple => Except.error ResolveError.multipleObjectsReturned
    | GetResult.notExist =>
      match qsGet (fun r => decide (r.owner = none)) qs with
      | GetResult.found r => Except.ok r
      | GetResult.multiple => Except.error ResolveError.multipleObjectsReturned
      | GetResult.notExist => Except.error ResolveError.parameterNotConfigured

/-- `Parameter.clean_config`: a parameter must reference exactly one of the
three plugin configurations; more than one or none raises
`ValidationError`. -/
def clean_config (p : Parameter) : Except ValidationError Unit :=
  let count_configs :=
    (if p.analyzer_config.isSome then 1 else 0) +
    (if p.connector_config.isSome then 1 else 0) +
    (if p.visualizer_config.isSome then 1 else 0)
  if count_configs > 1 then Except.error ValidationError.parameterOnMultipleConfigs
  else if count_configs = 0 then Except.error ValidationError.parameterOnNoConfig
  else Except.ok ()

/-- The foreign key of a parameter for a given configuration kind. -/
def paramConfigOf (p : Parameter) (k : ConfigKind) : Option String :=
  match k with
  | ConfigKind.analyzer => p.analyzer_config
  | ConfigKind.connector => p.connector_config
  | ConfigKind.visualizer => p.visualizer_config

/-- `self.parameters`: the reverse relation of the parameter foreign keys,
the parameters whose matching foreign key points at this configuration. -/
def PythonConfig.parameters (env : Env) (c : PythonConfig) : List Parameter :=
  env.params.filter (fun p => decide (paramConfigOf p c.kind = some c.name))

/-- `PythonConfig.required_parameters`: `self.parameters.filter(required=True)`. -/
def PythonConfig.required_parameters (env : Env) (c : PythonConfig) : List Parameter :=
  (PythonConfig.parameters env c).filter (fun p => p.required)

/-- `AbstractConfig._is_disabled_in_org`: true when the user exists, has a
membership, and the membership's organization is in
`disabled_in_organizations`. -/
def is_disabled_in_org (env : Env) (c : PythonConfig) (u : Option User) : Bool :=
  match u with
  | some user =>
    match env.membership user with
    | some org => c.disabled_in_organizations.contains org.pk
    | none => false
  | none => false

/-- `AbstractConfig.is_runnable`: not disabled for the user's organization
and not globally disabled. -/
def AbstractConfig.is_runnable (env : Env) (c : PythonConfig) (u : Option User) : Bool :=
  !(is_disabled_in_org env c u) && !c.disabled

/-- `PythonConfig._is_configured`: every required parameter has at least
one `PluginConfig` row visible to the user. -/
def is_configured (env : Env) (c : PythonConfig) (u : Option User) : Bool :=
  (PythonConfig.required_parameters env c).all
    (fun p => !(values_for_user env u p).isEmpty)

/-- `PythonConfig.is_runnable`: the `AbstractConfig` check and
`_is_configured`. -/
def PythonConfig.is_runnable (env : Env) (c : PythonConfig) (u : Option User) : Bool :=
  AbstractConfig.is_runnable env c u && is_configured env c u

/-- `job.get_config_runtime_configuration(config)` — modelled from the
spec: the job's per-plugin override map entry for this plugin, empty when
absent. -/
def Job.get_config_runtime_configuration (job : Job) (c : PythonConfig) : List (String × String) :=
  match List.lookup c.name job.runtime_configuration with
  | some m => m
  | none => []

/-- The loop body of `PythonConfig.read_params` for one parameter: the
runtime configuration wins when it contains the parameter's name;
otherwise `get_first_value(job.user).value` is used; its
ParameterNotConfigured is re-raised only when the parameter is required,
else the parameter is skipped (`none`); `MultipleObjectsReturned` is not a
`RuntimeError` and always propagates. -/
def resolveParam (env : Env) (c : PythonConfig) (job : Job) (q : Parameter) : Except ResolveError (Option String) :=
  match List.lookup q.name (Job.get_config_runtime_configuration job c) with
  | some v => Except.ok (some v)
  | none =>
    match get_first_value env q job.user with
    | Except.ok r => Except.ok (some r.value)
    | Except.error ResolveError.parameterNotConfigured =>
      if q.required then Except.error ResolveError.parameterNotConfigured
      else Except.ok none
    | Except.error ResolveError.multipleObjectsReturned =>
      Except.error ResolveError.multipleObjectsReturned

/-- The iteration of `read_params` over the parameter list, building the
result map in iteration order and aborting on the first raised error. -/
def readParamsAux (env : Env) (c : PythonConfig) (job : Job) : List Parameter → Except ResolveError (List (Parameter × String))
  | [] => Except.ok []
  | q :: qs =>
    match resolveParam env c job q with
    | Except.error e => Except.error e
    | Except.ok none => readParamsAux env c job qs
    | Except.ok (some v) =>
      match readParamsAux env c job qs with
      | Except.error e => Except.error e
      | Except.ok rest => Except.ok ((q, v) :: rest)

/-- `PythonConfig.read_params`: apply the per-parameter resolution to every
declared parameter of the plugin. -/
def read_params (env : Env) (c : PythonConfig) (job : Job) : Except ResolveError (List (Parameter × String)) :=
  readParamsAux env c job (PythonConfig.parameters env c)

/-- `PythonConfig.clean_config_queue`: when the configured queue is not in
`settings.CELERY_QUEUES`, log a warning and overwrite it with
`DEFAULT_QUEUE`; never raises. -/
def clean_config_queue (ce : CeleryEnv) (c : PythonConfig) : PythonConfig :=
  if ce.celeryQueues.contains c.config_queue then c
  else { c with config_queue := ce.defaultQueue }

/-- `PythonConfig.python_complete_path`: base path joined with the module. -/
def python_complete_path (c : PythonConfig) : String :=
  c.python_base_path ++ "." ++ c.python_module

/-- `PythonConfig.clean`: `clean_python_module` raises a `ValidationError`
when the python module cannot be imported (the loader predicate models the
plugin entry-point loader of spec section 6); then `clean_config_queue`
runs, which never raises. -/
def PythonConfig.clean (loadable : String → Bool) (ce : CeleryEnv) (c : PythonConfig) : Except ValidationError PythonConfig :=
  if loadable (python_complete_path c) then Except.ok (clean_config_queue ce c)
  else Except.error ValidationError.moduleImportError

/-- `PythonConfig.queue`: the configured queue when it is a valid celery
queue, else `DEFAULT_QUEUE`, passed through `get_queue_name`. -/
def PythonConfig.queue (ce : CeleryEnv) (c : PythonConfig) : String :=
  ce.getQueueName
    (if ce.celeryQueues.contains c.config_queue then c.config_queue
     else ce.defaultQueue)

/-- A celery `Signature` as built by `PythonConfig.get_signature`: the
fields named `args_` hold, in order, the positional argument list
`[job.pk, python_complete_path, self.pk, runtime_configuration, task_id]`;
`task_id` and `MessageGroupId` carry the freshly generated uuid. -/
structure TaskSignature where
  task : String
  args_job_pk : Nat
  args_python_complete_path : String
  args_config_pk : String
  args_runtime_configuration : List (String × String)
  args_task_id : Nat
  queue : String
  soft_time_limit : Nat
  task_id : Nat
  immutable : Bool
  MessageGroupId : Nat
deriving DecidableEq, Repr

/-- `uuid.uuid4()` modelled as a fresh-token supply: the generator state is
a counter, each draw returns the counter and advances it, so no token is
ever produced twice. -/
def freshUuid (g : Nat) : Nat × Nat := (g, g + 1)

/-- `PythonConfig.get_signature`: when `is_runnable(job.user)` holds,
generate a new `task_id` and build the `run_plugin` celery signature with
the job pk, the python complete path, the config pk (its name), the job's
runtime configuration for this plugin, and the task id; the plugin's queue
and soft time limit; `MessageGroupId` set to the same task id. Otherwise
raise the not-runnable `RuntimeError`. -/
def PythonConfig.get_signature (env : Env) (ce : CeleryEnv) (c : PythonConfig) (job : Job) (g : Nat) : Except SignatureError (TaskSignature × Nat) :=
  if PythonConfig.is_runnable env c (some job.user) then
    let fresh := freshUuid g
    Except.ok
      ({ task := "run_plugin"
         args_job_pk := job.pk
         args_python_complete_path := python_complete_path c
         args_config_pk := c.name
         args_runtime_configuration := Job.get_config_runtime_configuration job c
         args_task_id := fresh.fst
         queue := PythonConfig.queue ce c
         soft_time_limit := c.config_soft_time_limit
         task_id := fresh.fst
         immutable := true
         MessageGroupId := fresh.fst }, fresh.snd)
  else Except.error SignatureError.pluginNotRunnable

/-! Concrete database states used by witnesses and counterexamples. -/

/-- A user who owns the organization `orgAcme`. -/
def userAlice : User := ⟨1⟩

/-- A member of `orgAcme` who is not its owner. -/
def userBob : User := ⟨2⟩

/-- A user with no membership. -/
def userEve : User := ⟨3⟩

/-- The organization, owned by `userAlice`. -/
def orgAcme : Organization := ⟨10, userAlice⟩

/-- Membership directory: Alice and Bob belong to Acme, everyone else to
no organization. -/
def memb1 : User → Option Organization := fun u =>
  if u.id = 1 || u.id = 2 then some orgAcme else none

/-- A required secret parameter of the analyzer `AnalyzerX`. -/
def apiKey : Parameter :=
  { id := 1, name := "api_key_name", is_secret := true, required := true
    analyzer_config := some "AnalyzerX", connector_config := none
    visualizer_config := none }

/-- The same parameter with `required = false`. -/
def apiKeyOpt : Parameter := { apiKey with required := false }

/-- A user-scoped value owned by Bob. -/
def rowUser : PluginConfigRow :=
  { parameter := 1, value := "user-key", owner := some userBob, for_organization := false }

/-- A user-scoped value owned by Alice. -/
def rowUserAlice : PluginConfigRow :=
  { parameter := 1, value := "alice-key", owner := some userAlice, for_organization := false }

/-- The organization-scoped value: owned by the organization owner Alice,
`for_organization = true`. -/
def rowOrg : PluginConfigRow :=
  { parameter := 1, value := "org-key", owner := some userAlice, for_organization := true }

/-- The system default value: no owner. -/
def rowDef : PluginConfigRow :=
  { parameter := 1, value := "def-key", owner := none, for_organization := false }

/-- The analyzer configuration the fixtures attach to. -/
def analyzerX : PythonConfig :=
  { name := "AnalyzerX", kind := ConfigKind.analyzer, disabled := false
    disabled_in_organizations := []
    python_base_path := "api_app.analyzers_manager.observable_analyzers"
    python_module := "validin.Validin"
    config_queue := "default", config_soft_time_limit := 60 }

/-- `analyzerX` globally disabled. -/
def analyzerXDisabled : PythonConfig := { analyzerX with disabled := true }

/-- `analyzerX` disabled for the organization Acme. -/
def analyzerXOrgDisabled : PythonConfig :=
  { analyzerX with disabled_in_organizations := [10] }

/-- `analyzerX` with a queue that is not among the valid celery queues. -/
def analyzerXBadQueue : PythonConfig := { analyzerX with config_queue := "weird" }

/-- State with user, organization and default values all present. -/
def envFull : Env := { params := [apiKey], rows := [rowUser, rowOrg, rowDef], membership := memb1 }

/-- State where the organization owner Alice also has a personal value, so
two visible rows have `owner = Alice`. -/
def envOwnerClash : Env := { params := [apiKey], rows := [rowUserAlice, rowOrg, rowDef], membership := memb1 }

/-- State with only the organization value and the default. -/
def envOrgDef : Env := { params := [apiKey], rows := [rowOrg, rowDef], membership := memb1 }

/-- State with only the default value. -/
def envDefOnly : Env := { params := [apiKey], rows := [rowDef], membership := memb1 }

/-- State with no values at all for the required parameter. -/
def envEmpty : Env := { params := [apiKey], rows := [], membership := memb1 }

/-- State where the only parameter is optional and has no values. -/
def envEmptyOpt : Env := { params := [apiKeyOpt], rows := [], membership := memb1 }

/-- A job with no runtime configuration. -/
def jobBob : Job := { pk := 5, user := userBob, runtime_configuration := [] }

/-- A job overriding `api_key_name` for `AnalyzerX` at runtime. -/
def jobBobOverride : Job :=
  { pk := 6, user := userBob
    runtime_configuration := [("AnalyzerX", [("api_key_name", "abc")])] }

/-- Celery settings fixture. -/
def ce1 : CeleryEnv :=
  { celeryQueues := ["default", "long"], defaultQueue := "default"
    getQueueName := fun q => q ++ ".celery" }

/-- An entry-point loader that loads every path. -/
def loadAll : String → Bool := fun _ => true

/-- Whether an `Except` value is a success. -/
def exceptIsOk {ε α : Type} : Except ε α → Bool
  | Except.ok _ => true
  | Except.error _ => false

/-- The task signature `get_signature` builds for `jobBob` and `analyzerX`
under `ce1` when the generator state is `t`. -/
def sigBob (t : Nat) : TaskSignature :=
  { task := "run_plugin", args_job_pk := 5
    args_python_complete_path :=
      "api_app.analyzers_manager.observable_analyzers.validin.Validin"
    args_config_pk := "AnalyzerX", args_runtime_configuration := []
    args_task_id := t, queue := "default.celery", soft_time_limit := 60
    task_id := t, immutable := true, MessageGroupId := t }

/-! Claim theorems. -/

/-- C3: a plugin configuration with `disabled = true` is never runnable,
for every environment and every user (including no user), regardless of
parameter state. -/
theorem c3_disabled_never_runnable (env : Env) (c : PythonConfig) (u : Option User)
    (hd : c.disabled = true) :
    PythonConfig.is_runnable env c u = false := by
  simp [PythonConfig.is_runnable, AbstractConfig.is_runnable, hd]

/-- Witness for C3: the disabled analyzer is not runnable for Bob even
though all of Bob's required parameters are configured. -/
theorem c3_disabled_never_runnable_witness :
    analyzerXDisabled.disabled = true ∧
    is_configured envFull analyzerXDisabled (some userBob) = true ∧
    PythonConfig.is_runnable envFull analyzerXDisabled (some userBob) = false :=
  ⟨by decide, by decide,
    c3_disabled_never_runnable envFull analyzerXDisabled (some userBob) (by decide)⟩

/-- C4: a plugin disabled for an organization is not runnable for any user
whose membership is that organization; a user whose membership is not a
disabled organization can run it provided it is not globally disabled and
the user's required parameters are all configured. -/
theorem c4_org_disable (env : Env) (c : PythonConfig) :
    (∀ u org, env.membership u = some org →
       c.disabled_in_organizations.contains org.pk = true →
       PythonConfig.is_runnable env c (some u) = false) ∧
    (∀ u, (∀ org, env.membership u = some org →
         c.disabled_in_organizations.contains org.pk = false) →
       c.disabled = false → is_configured env c (some u) = true →
       PythonConfig.is_runnable env c (some u) = true) := by
  constructor
  · intro u org hm hdis
    have hdis' : org.pk ∈ c.disabled_in_organizations := by simpa using hdis
    simp [PythonConfig.is_runnable, AbstractConfig.is_runnable, is_disabled_in_org, hm, hdis']
  · intro u horg hdis hconf
    cases hm : env.membership u with
    | none =>
      simp [PythonConfig.is_runnable, AbstractConfig.is_runnable, is_disabled_in_org, hm,
        hdis, hconf]
    | some org =>
      have horg' : org.pk ∉ c.disabled_in_organizations := by simpa using horg org hm
      simp [PythonConfig.is_runnable, AbstractConfig.is_runnable, is_disabled_in_org, hm,
        horg', hdis, hconf]

/-- Witness for C4: with `AnalyzerX` disabled for Acme, Bob (member of
Acme) cannot run it while Eve (no membership, default value visible) can. -/
theorem c4_org_disable_witness :
    PythonConfig.is_runnable envFull analyzerXOrgDisabled (some userBob) = false ∧
    PythonConfig.is_runnable envFull analyzerXOrgDisabled (some userEve) = true :=
  ⟨(c4_org_disable envFull analyzerXOrgDisabled).1 userBob orgAcme (by decide) (by decide),
   (c4_org_disable envFull analyzerXOrgDisabled).2 userEve (by decide) (by decide) (by decide)⟩

/-- C5: `get_signature` succeeds exactly when `is_runnable(job.user)` is
true; when it is false the call raises the not-runnable error and produces
no descriptor. -/
theorem c5_signature_iff_runnable (env : Env) (ce : CeleryEnv) (c : PythonConfig)
    (job : Job) (g : Nat) :
    (PythonConfig.is_runnable env c (some job.user) = true →
       ∃ s g', PythonConfig.get_signature env ce c job g = Except.ok (s, g')) ∧
    (PythonConfig.is_runnable env c (some job.user) = false →
       PythonConfig.get_signature env ce c job g = Except.error SignatureError.pluginNotRunnable) := by
  constructor
  · intro h
    have hok : PythonConfig.get_signature env ce c job g =
        Except.ok
          ({ task := "run_plugin"
             args_job_pk := job.pk
             args_python_complete_path := python_complete_path c
             args_config_pk := c.name
             args_runtime_configuration := Job.get_config_runtime_configuration job c
             args_task_id := g
             queue := PythonConfig.queue ce c
             soft_time_limit := c.config_soft_time_limit
             task_id := g
             immutable := true
             MessageGroupId := g }, g + 1) := by
      unfold PythonConfig.get_signature
      rw [h]
      rfl
    exact ⟨_, _, hok⟩
  · intro h
    simp [PythonConfig.get_signature, h]

/-- Witness for C5: the empty state yields the not-runnable error, the
runnable state does not. -/
theorem c5_signature_iff_runnable_witness :
    PythonConfig.get_signature envEmpty ce1 analyzerX jobBob 0 =
      Except.error SignatureError.pluginNotRunnable ∧
    PythonConfig.get_signature envFull ce1 analyzerX jobBob 0 ≠
      Except.error SignatureError.pluginNotRunnable := by
  constructor
  · exact (c5_signature_iff_runnable envEmpty ce1 analyzerX jobBob 0).2 (by decide)
  · obtain ⟨s, g', hs⟩ := (c5_signature_iff_runnable envFull ce1 analyzerX jobBob 0).1 (by decide)
    rw [hs]
    simp

/-- C7: two separate successful `get_signature` calls, the second starting
from the generator state the first returned, always produce distinct task
ids, even for the same plugin, job and environment. -/
theorem c7_task_ids_distinct (env env' : Env) (ce ce' : CeleryEnv)
    (c c' : PythonConfig) (job job' : Job) (g g₁ g₂ : Nat)
    (s₁ s₂ : TaskSignature)
    (h₁ : PythonConfig.get_signature env ce c job g = Except.ok (s₁, g₁))
    (h₂ : PythonConfig.get_signature env' ce' c' job' g₁ = Except.ok (s₂, g₂)) :
    s₁.task_id ≠ s₂.task_id := by
  unfold PythonConfig.get_signature at h₁ h₂
  split at h₁
  · split at h₂
    · injection h₁ with h₁'
      injection h₂ with h₂'
      have hs₁ : s₁.task_id = g := by
        have := congrArg (fun p => (Prod.fst p).task_id) h₁'.symm
        simpa [freshUuid] using this
      have hg₁ : g₁ = g + 1 := by
        have := congrArg Prod.snd h₁'.symm
        simpa [freshUuid] using this
      have hs₂ : s₂.task_id = g₁ := by
        have := congrArg (fun p => (Prod.fst p).task_id) h₂'.symm
        simpa [freshUuid] using this
      omega
    · exact absurd h₂ (by simp)
  · exact absurd h₁ (by simp)

/-- Witness for C7: two back-to-back calls for the same plugin and job
yield the descriptors with task ids 0 and 1, which differ. -/
theorem c7_task_ids_distinct_witness :
    PythonConfig.get_signature envFull ce1 analyzerX jobBob 0 = Except.ok (sigBob 0, 1) ∧
    PythonConfig.get_signature envFull ce1 analyzerX jobBob 1 = Except.ok (sigBob 1, 2) ∧
    (sigBob 0).task_id ≠ (sigBob 1).task_id :=
  ⟨by decide, by decide,
   c7_task_ids_distinct envFull envFull ce1 ce1 analyzerX analyzerX jobBob jobBob
     0 1 2 (sigBob 0) (sigBob 1) (by decide) (by decide)⟩

/-- C8: when the configured queue is invalid, registration-time cleaning
succeeds (provided the entry point is loadable) and substitutes the
default queue, and the dispatch-time queue is the default queue; when the
queue is valid, cleaning keeps the configuration unchanged and the
configured queue is used. -/
theorem c8_queue_fallback (loadable : String → Bool) (ce : CeleryEnv) (c : PythonConfig)
    (hload : loadable (python_complete_path c) = true) :
    (ce.celeryQueues.contains c.config_queue = false →
       PythonConfig.clean loadable ce c =
         Except.ok { c with config_queue := ce.defaultQueue } ∧
       PythonConfig.queue ce c = ce.getQueueName ce.defaultQueue) ∧
    (ce.celeryQueues.contains c.config_queue = true →
       PythonConfig.clean loadable ce c = Except.ok c ∧
       PythonConfig.queue ce c = ce.getQueueName c.config_queue) := by
  constructor
  · intro h
    have h' : c.config_queue ∉ ce.celeryQueues := by simpa using h
    constructor
    · simp [PythonConfig.clean, hload, clean_config_queue, h']
    · simp [PythonConfig.queue, h']
  · intro h
    have h' : c.config_queue ∈ ce.celeryQueues := by simpa using h
    constructor
    · simp [PythonConfig.clean, hload, clean_config_queue, h']
    · simp [PythonConfig.queue, h']

/-- Witness for C8: the analyzer with queue `weird` cleans to the default
queue and dispatches to it; with queue `default` both are unchanged. -/
theorem c8_queue_fallback_witness :
    (PythonConfig.clean loadAll ce1 analyzerXBadQueue =
       Except.ok { analyzerXBadQueue with config_queue := "default" } ∧
     PythonConfig.queue ce1 analyzerXBadQueue = "default.celery") ∧
    (PythonConfig.clean loadAll ce1 analyzerX = Except.ok analyzerX ∧
     PythonConfig.queue ce1 analyzerX = "default.celery") :=
  ⟨(c8_queue_fallback loadAll ce1 analyzerXBadQueue (by decide)).1 (by decide),
   (c8_queue_fallback loadAll ce1 analyzerX (by decide)).2 (by decide)⟩

/-- C9: `clean_config` accepts a parameter exactly when exactly one of the
three owning configurations is set; attached to none or to more than one,
it raises a validation error. -/
theorem c9_exactly_one_config (p : Parameter) :
    (clean_config p = Except.ok () ↔
      ((p.analyzer_config.isSome ∧ p.connector_config = none ∧ p.visualizer_config = none) ∨
       (p.analyzer_config = none ∧ p.connector_config.isSome ∧ p.visualizer_config = none) ∨
       (p.analyzer_config = none ∧ p.connector_config = none ∧ p.visualizer_config.isSome))) ∧
    (clean_config p ≠ Except.ok () →
      clean_config p = Except.error ValidationError.parameterOnMultipleConfigs ∨
      clean_config p = Except.error ValidationError.parameterOnNoConfig) := by
  constructor
  · cases ha : p.analyzer_config <;> cases hc : p.connector_config <;>
      cases hv : p.visualizer_config <;>
      simp [clean_config, ha, hc, hv]
  · intro hne
    cases ha : p.analyzer_config <;> cases hc : p.connector_config <;>
      cases hv : p.visualizer_config <;>
      simp_all [clean_config, ha, hc, hv]

/-- Witness for C9: the fixture parameter, attached to exactly the
analyzer configuration, passes validation; detached from all three it is
rejected. -/
theorem c9_exactly_one_config_witness :
    clean_config apiKey = Except.ok () ∧
    (clean_config { apiKey with analyzer_config := none } =
       Except.error ValidationError.parameterOnMultipleConfigs ∨
     clean_config { apiKey with analyzer_config := none } =
       Except.error ValidationError.parameterOnNoConfig) :=
  ⟨(c9_exactly_one_config apiKey).1.mpr (by decide),
   (c9_exactly_one_config { apiKey with analyzer_config := none }).2 (by decide)⟩

/-- An `Except` with `exceptIsOk` carries a success value. -/
theorem exceptIsOk_exists {ε α : Type} (x : Except ε α) (h : exceptIsOk x = true) :
    ∃ v, x = Except.ok v := by
  cases x with
  | ok v => exact ⟨v, rfl⟩
  | error e => simp [exceptIsOk] at h

/-- With no visible rows, every tier of `get_first_value` misses and the
not-configured error is raised. -/
theorem get_first_value_of_no_values (env : Env) (p : Parameter) (u : User)
    (h : values_for_user env (some u) p = []) :
    get_first_value env p u = Except.error ResolveError.parameterNotConfigured := by
  cases hm : env.membership u <;>
    simp [get_first_value, h, qsGet, hm]

/-- A required parameter with no visible rows makes `_is_configured`
false. -/
theorem is_configured_false_of_required_empty (env : Env) (c : PythonConfig)
    (u : Option User) (p : Parameter)
    (hp : p ∈ PythonConfig.parameters env c) (hreq : p.required = true)
    (hempty : values_for_user env u p = []) :
    is_configured env c u = false := by
  have hmem : p ∈ PythonConfig.required_parameters env c :=
    List.mem_filter.mpr ⟨hp, by simp [hreq]⟩
  cases hall : is_configured env c u with
  | false => rfl
  | true =>
    exfalso
    unfold is_configured at hall
    have h2 := List.all_eq_true.mp hall p hmem
    rw [hempty] at h2
    simp at h2

/-- The `read_params` loop body raises the not-configured error on a
required parameter with no runtime override and no visible rows. -/
theorem resolveParam_not_configured (env : Env) (c : PythonConfig) (job : Job)
    (p : Parameter)
    (hrt : List.lookup p.name (Job.get_config_runtime_configuration job c) = none)
    (hreq : p.required = true)
    (hempty : values_for_user env (some job.user) p = []) :
    resolveParam env c job p = Except.error ResolveError.parameterNotConfigured := by
  simp [resolveParam, hrt, get_first_value_of_no_values env p job.user hempty, hreq]

/-- The `read_params` loop body skips an optional parameter with no
runtime override and no visible rows. -/
theorem resolveParam_skip (env : Env) (c : PythonConfig) (job : Job) (p : Parameter)
    (hrt : List.lookup p.name (Job.get_config_runtime_configuration job c) = none)
    (hreq : p.required = false)
    (hempty : values_for_user env (some job.user) p = []) :
    resolveParam env c job p = Except.ok none := by
  simp [resolveParam, hrt, get_first_value_of_no_values env p job.user hempty, hreq]

/-- The `read_params` loop body uses the runtime override verbatim when
present. -/
theorem resolveParam_runtime (env : Env) (c : PythonConfig) (job : Job)
    (p : Parameter) (v : String)
    (hrt : List.lookup p.name (Job.get_config_runtime_configuration job c) = some v) :
    resolveParam env c job p = Except.ok (some v) := by
  simp [resolveParam, hrt]

/-- The `read_params` iteration propagates the error of a failing
parameter when every other parameter succeeds. -/
theorem readParamsAux_error_of_mem (env : Env) (c : PythonConfig) (job : Job)
    (p : Parameter) (e : ResolveError) (ps : List Parameter)
    (hp : p ∈ ps) (he : resolveParam env c job p = Except.error e)
    (hoth : ∀ q ∈ ps, q ≠ p → exceptIsOk (resolveParam env c job q) = true) :
    readParamsAux env c job ps = Except.error e := by
  induction ps with
  | nil => cases hp
  | cons q qs ih =>
    by_cases hqp : q = p
    · subst hqp
      simp [readParamsAux, he]
    · obtain ⟨v, hv⟩ := exceptIsOk_exists _ (hoth q (List.mem_cons_self q qs) hqp)
      have hp' : p ∈ qs := by
        rcases List.mem_cons.mp hp with h | h
        · exact absurd h.symm hqp
        · exact h
      have ihres := ih hp' (fun r hr hrp => hoth r (List.mem_cons_of_mem q hr) hrp)
      cases v with
      | none => simp [readParamsAux, hv, ihres]
      | some v0 => simp [readParamsAux, hv, ihres]

/-- When every parameter of the list resolves, the `read_params` iteration
succeeds; its result map is sound (each entry comes from its parameter's
resolution) and complete (each parameter resolving to a value appears). -/
theorem readParamsAux_ok_of_all (env : Env) (c : PythonConfig) (job : Job)
    (ps : List Parameter)
    (hall : ∀ q ∈ ps, ∃ v, resolveParam env c job q = Except.ok v) :
    ∃ m, readParamsAux env c job ps = Except.ok m ∧
      (∀ q v, (q, v) ∈ m → resolveParam env c job q = Except.ok (some v)) ∧
      (∀ q ∈ ps, ∀ v, resolveParam env c job q = Except.ok (some v) → (q, v) ∈ m) := by
  induction ps with
  | nil => exact ⟨[], rfl, by simp, by simp⟩
  | cons q qs ih =>
    obtain ⟨m, hm, hsound, hcompl⟩ := ih (fun r hr => hall r (List.mem_cons_of_mem q hr))
    obtain ⟨v, hv⟩ := hall q (List.mem_cons_self q qs)
    cases v with
    | none =>
      refine ⟨m, ?_, hsound, ?_⟩
      · simp [readParamsAux, hv, hm]
      · intro r hr v0 hres
        rcases List.mem_cons.mp hr with h | h
        · subst h
          rw [hres] at hv
          simp at hv
        · exact hcompl r h v0 hres
    | some v0 =>
      refine ⟨(q, v0) :: m, ?_, ?_, ?_⟩
      · simp [readParamsAux, hv, hm]
      · intro r v1 hr
        rcases List.mem_cons.mp hr with h | h
        · rw [Prod.mk.injEq] at h
          obtain ⟨rfl, rfl⟩ := h
          exact hv
        · exact hsound r v1 h
      · intro r hr v1 hres
        rcases List.mem_cons.mp hr with h | h
        · subst h
          have h2 := hres.symm.trans hv
          injection h2 with h2'
          injection h2' with h2''
          exact List.mem_cons.mpr (Or.inl (by rw [h2'']))
        · exact List.mem_cons_of_mem _ (hcompl r h v1 hres)

/-- C2: for a plugin one of whose parameters has no value at any tier (no
runtime override, no visible stored row) while every other parameter of
the plugin resolves: when the parameter is required, `read_params` raises
the not-configured error and `is_runnable` is false; when it is optional,
`read_params` succeeds and its result omits the parameter. -/
theorem c2_required_missing_vs_optional (env : Env) (c : PythonConfig) (job : Job)
    (p : Parameter)
    (hp : p ∈ PythonConfig.parameters env c)
    (hrt : List.lookup p.name (Job.get_config_runtime_configuration job c) = none)
    (hempty : values_for_user env (some job.user) p = [])
    (hoth : ∀ q ∈ PythonConfig.parameters env c, q ≠ p →
      exceptIsOk (resolveParam env c job q) = true) :
    (p.required = true →
       read_params env c job = Except.error ResolveError.parameterNotConfigured ∧
       PythonConfig.is_runnable env c (some job.user) = false) ∧
    (p.required = false →
       ∃ m, read_params env c job = Except.ok m ∧ ∀ v, (p, v) ∉ m) := by
  constructor
  · intro hreq
    constructor
    · unfold read_params
      exact readParamsAux_error_of_mem env c job p _ _ hp
        (resolveParam_not_configured env c job p hrt hreq hempty) hoth
    · have hconf := is_configured_false_of_required_empty env c (some job.user) p hp hreq hempty
      simp [PythonConfig.is_runnable, hconf]
  · intro hreq
    have hpok := resolveParam_skip env c job p hrt hreq hempty
    have hall : ∀ q ∈ PythonConfig.parameters env c,
        ∃ v, resolveParam env c job q = Except.ok v := by
      intro q hq
      by_cases hqp : q = p
      · subst hqp; exact ⟨none, hpok⟩
      · exact exceptIsOk_exists _ (hoth q hq hqp)
    obtain ⟨m, hm, hsound, _⟩ := readParamsAux_ok_of_all env c job _ hall
    refine ⟨m, hm, ?_⟩
    intro v hv
    have hcontra := hsound p v hv
    rw [hpok] at hcontra
    simp at hcontra

/-- Witness for C2: the required `api_key_name` with no stored value makes
`read_params` raise and `is_runnable` false; the optional variant in the
same state leaves `read_params` returning the empty map. -/
theorem c2_required_missing_vs_optional_witness :
    (read_params envEmpty analyzerX jobBob = Except.error ResolveError.parameterNotConfigured ∧
     PythonConfig.is_runnable envEmpty analyzerX (some userBob) = false) ∧
    read_params envEmptyOpt analyzerX jobBob = Except.ok [] := by
  refine ⟨?_, ?_⟩
  · exact (c2_required_missing_vs_optional envEmpty analyzerX jobBob apiKey
      (by decide) (by decide) (by decide) (by decide)).1 (by decide)
  · obtain ⟨m, hm, homit⟩ := (c2_required_missing_vs_optional envEmptyOpt analyzerX jobBob
      apiKeyOpt (by decide) (by decide) (by decide) (by decide)).2 (by decide)
    have hval : read_params envEmptyOpt analyzerX jobBob = Except.ok [] := by decide
    exact hval

/-- C10: a plugin whose required parameter is supplied only by a runtime
override in the job (no stored value at any tier) is not runnable for that
job's user and `get_signature` fails, yet `read_params` for the same
plugin and job resolves the parameter from the override (provided the
plugin's other parameters resolve). -/
theorem c10_override_does_not_make_runnable (env : Env) (ce : CeleryEnv)
    (c : PythonConfig) (job : Job) (p : Parameter) (v : String) (g : Nat)
    (hp : p ∈ PythonConfig.parameters env c)
    (hreq : p.required = true)
    (hempty : values_for_user env (some job.user) p = [])
    (hrt : List.lookup p.name (Job.get_config_runtime_configuration job c) = some v)
    (hoth : ∀ q ∈ PythonConfig.parameters env c, q ≠ p →
      exceptIsOk (resolveParam env c job q) = true) :
    PythonConfig.is_runnable env c (some job.user) = false ∧
    PythonConfig.get_signature env ce c job g = Except.error SignatureError.pluginNotRunnable ∧
    ∃ m, read_params env c job = Except.ok m ∧ (p, v) ∈ m := by
  have hconf := is_configured_false_of_required_empty env c (some job.user) p hp hreq hempty
  have hrun : PythonConfig.is_runnable env c (some job.user) = false := by
    simp [PythonConfig.is_runnable, hconf]
  refine ⟨hrun, ?_, ?_⟩
  · simp [PythonConfig.get_signature, hrun]
  · have hpok := resolveParam_runtime env c job p v hrt
    have hall : ∀ q ∈ PythonConfig.parameters env c,
        ∃ w, resolveParam env c job q = Except.ok w := by
      intro q hq
      by_cases hqp : q = p
      · subst hqp; exact ⟨some v, hpok⟩
      · exact exceptIsOk_exists _ (hoth q hq hqp)
    obtain ⟨m, hm, _, hcompl⟩ := readParamsAux_ok_of_all env c job _ hall
    exact ⟨m, hm, hcompl p hp v hpok⟩

/-- Witness for C10: with the key supplied only in the job's runtime
configuration, the analyzer is not runnable and no signature is built, yet
`read_params` resolves the key to the override value. -/
theorem c10_override_does_not_make_runnable_witness :
    PythonConfig.is_runnable envEmpty analyzerX (some userBob) = false ∧
    PythonConfig.get_signature envEmpty ce1 analyzerX jobBobOverride 0 =
      Except.error SignatureError.pluginNotRunnable ∧
    read_params envEmpty analyzerX jobBobOverride = Except.ok [(apiKey, "abc")] := by
  obtain ⟨h1, h2, -⟩ := c10_override_does_not_make_runnable envEmpty ce1 analyzerX
    jobBobOverride apiKey "abc" 0 (by decide) (by decide) (by decide) (by decide) (by decide)
  exact ⟨h1, h2, by decide⟩

/-- C1 counterexample: with a user-scoped value, an organization-scoped
value and a default all present, resolution for the organization's owner
Alice does not return the user-scoped value: the `owner=user` lookup
matches both her personal row and the organization row (the code does not
filter on `for_organization`), so `MultipleObjectsReturned` is raised. -/
theorem c1_counterexample :
    envOwnerClash.rows = [rowUserAlice, rowOrg, rowDef] ∧
    rowUserAlice.owner = some userAlice ∧ rowUserAlice.for_organization = false ∧
    rowOrg.for_organization = true ∧ rowOrg.owner = some orgAcme.owner ∧
    rowDef.owner = none ∧
    envOwnerClash.membership userAlice = some orgAcme ∧
    get_first_value envOwnerClash apiKey userAlice =
      Except.error ResolveError.multipleObjectsReturned ∧
    get_first_value envOwnerClash apiKey userAlice ≠ Except.ok rowUserAlice := by
  decide

/-- C1 (amended): precedence of `get_first_value`. With a user-scoped
value, the organization-scoped value of the user's organization, and a
default all present, and the user distinct from the organization's owner,
the user-scoped value is returned; with only the organization value and
the default present and the user a member, the organization value is
returned; with only the default present, the default is returned. -/
theorem c1_precedence_amended :
    (∀ (env : Env) (p : Parameter) (u w : User) (org : Organization)
       (vu vo vd : String),
       env.membership u = some org → org.owner = w → w ≠ u →
       env.rows = [⟨p.id, vu, some u, false⟩, ⟨p.id, vo, some w, true⟩,
                   ⟨p.id, vd, none, false⟩] →
       get_first_value env p u = Except.ok ⟨p.id, vu, some u, false⟩) ∧
    (∀ (env : Env) (p : Parameter) (u w : User) (org : Organization) (vo vd : String),
       env.membership u = some org → org.owner = w →
       env.rows = [⟨p.id, vo, some w, true⟩, ⟨p.id, vd, none, false⟩] →
       get_first_value env p u = Except.ok ⟨p.id, vo, some w, true⟩) ∧
    (∀ (env : Env) (p : Parameter) (u : User) (vd : String),
       env.rows = [⟨p.id, vd, none, false⟩] →
       get_first_value env p u = Except.ok ⟨p.id, vd, none, false⟩) := by
  refine ⟨?_, ?_, ?_⟩
  · intro env p u w org vu vo vd hm how hne hrows
    subst how
    simp [get_first_value, values_for_user, visibleTo, qsGet, hrows, hm, hne,
      List.filter]
  · intro env p u w org vo vd hm how hrows
    subst how
    by_cases hwu : org.owner = u
    · subst hwu
      simp [get_first_value, values_for_user, visibleTo, qsGet, hrows, hm,
        List.filter]
    · simp [get_first_value, values_for_user, visibleTo, qsGet, hrows, hm, hwu,
        List.filter]
  · intro env p u vd hrows
    cases hm : env.membership u <;>
      simp [get_first_value, values_for_user, visibleTo, qsGet, hrows, hm,
        List.filter]

/-- Witness for C1 (amended): Bob gets his own value when all three tiers
are present, the organization value when only it and the default exist,
and Eve the default when only it exists. -/
theorem c1_precedence_amended_witness :
    get_first_value envFull apiKey userBob =
      Except.ok ⟨apiKey.id, "user-key", some userBob, false⟩ ∧
    get_first_value envOrgDef apiKey userBob =
      Except.ok ⟨apiKey.id, "org-key", some userAlice, true⟩ ∧
    get_first_value envDefOnly apiKey userEve =
      Except.ok ⟨apiKey.id, "def-key", none, false⟩ :=
  ⟨c1_precedence_amended.1 envFull apiKey userBob userAlice orgAcme
     "user-key" "org-key" "def-key" (by decide) (by decide) (by decide) (by decide),
   c1_precedence_amended.2.1 envOrgDef apiKey userBob userAlice orgAcme
     "org-key" "def-key" (by decide) (by decide) (by decide),
   c1_precedence_amended.2.2 envDefOnly apiKey userEve "def-key" (by decide)⟩

/-- C6 counterexample: a successful `get_signature` whose descriptor's
argument map is the job's (empty) runtime configuration, although the
resolved parameter map of `read_params` for the same plugin and job is
nonempty: the descriptor does not include the resolved parameter map. -/
theorem c6_counterexample :
    PythonConfig.get_signature envDefOnly ce1 analyzerX jobBob 0 =
      Except.ok (sigBob 0, 1) ∧
    read_params envDefOnly analyzerX jobBob = Except.ok [(apiKey, "def-key")] ∧
    (sigBob 0).args_runtime_configuration = [] ∧
    List.lookup apiKey.name (sigBob 0).args_runtime_configuration = none := by
  decide

/-- C6 (amended): the arguments of a successfully built descriptor carry
the job's runtime-configuration override map for the plugin (resolution
happens later, worker side), together with the plugin's complete python
path, the job's pk and the plugin config's pk. -/
theorem c6_descriptor_args_amended (env : Env) (ce : CeleryEnv) (c : PythonConfig)
    (job : Job) (g : Nat) (s : TaskSignature) (g' : Nat)
    (h : PythonConfig.get_signature env ce c job g = Except.ok (s, g')) :
    s.args_runtime_configuration = Job.get_config_runtime_configuration job c ∧
    s.args_python_complete_path = python_complete_path c ∧
    s.args_job_pk = job.pk ∧
    s.args_config_pk = c.name := by
  unfold PythonConfig.get_signature at h
  split at h
  · injection h with h'
    have hs : s = _ := (congrArg Prod.fst h').symm
    subst hs
    exact ⟨rfl, rfl, rfl, rfl⟩
  · exact absurd h (by simp)

/-- Witness for C6 (amended): the concrete descriptor built for `jobBob`
carries the empty runtime map, the analyzer's python path, the job pk and
the config name. -/
theorem c6_descriptor_args_amended_witness :
    (sigBob 0).args_runtime_configuration =
      Job.get_config_runtime_configuration jobBob analyzerX ∧
    (sigBob 0).args_python_complete_path = python_complete_path analyzerX ∧
    (sigBob 0).args_job_pk = jobBob.pk ∧
    (sigBob 0).args_config_pk = analyzerX.name :=
  c6_descriptor_args_amended envDefOnly ce1 analyzerX jobBob 0 (sigBob 0) 1 (by decide)
